import Mathlib

/-!
Shallow embedding of the `haleyrc/http` Go package: a server supervisor
wrapping `http.Server` (package `server`) and a client factory wrapping
`http.Client` (package `client`).

Go `time.Duration` is an `int64` count of nanoseconds; we model it as `Int`.
Writers (Go `io.Writer`) are opaque sink identities: the code only stores
them and writes to them, so we model them as an inductive identity type with the
two process-standard sinks plus arbitrary user-supplied ones.
Error values are carried as their message strings (`error.Error()`).
Messages written to sinks are modelled structurally: each `fmt.Fprintf`
call site in the source has a fixed format string, so an event records the
call site's constructor applied to the runtime parameters.
-/

/-- Go `time.Duration`: int64 nanoseconds. -/
abbrev Duration := Int

/-- `time.Second` in nanoseconds. -/
def second : Duration := 1000000000

/-- Opaque identity of a Go `io.Writer` sink. `os.Stdout` and `os.Stderr`
are the two distinguished process sinks; any other writer supplied via an
option is `custom`. -/
inductive Sink where
  | stdout : Sink
  | stderr : Sink
  | custom : Nat → Sink
deriving DecidableEq, Repr

/-- A Go `error` value, carried as its message string. -/
abbrev GoError := String

namespace server

/-- `ReadTimeout = 5 * time.Second` (server.go). -/
def ReadTimeout : Duration := 5 * second

/-- `WriteTimeout = 10 * time.Second` (server.go). -/
def WriteTimeout : Duration := 10 * second

/-- `ShutdownTimeout = 5 * time.Second` (server.go). -/
def ShutdownTimeout : Duration := 5 * second

/-- `MaxHeaderBytes = 1 << 20` (server.go). -/
def MaxHeaderBytes : Int := 1 <<< 20

/-- The configuration fields of the wrapped standard `http.Server` that this
package touches: `Addr`, `Handler`, `ReadTimeout`, `WriteTimeout`,
`MaxHeaderBytes`. The handler is opaque (`http.Handler`), so it is a type
parameter. -/
structure HttpServer (H : Type) where
  addr : String
  handler : H
  readTimeout : Duration
  writeTimeout : Duration
  maxHeaderBytes : Int
deriving DecidableEq, Repr

/-- The `server.Server` struct: addr, wrapped `http.Server`, shutdown
duration, and the out/err writer sinks. -/
structure Server (H : Type) where
  addr : String
  server : HttpServer H
  shutdown : Duration
  out : Sink
  err : Sink
deriving DecidableEq, Repr

/-- The recognized server options. In Go each is a closure `func(*Server) *Server`
produced by the corresponding `With...` constructor; since only these six
constructors exist in the package, the option space is this inductive, and
option application is `applyOpt`. -/
inductive Opt where
  | withReadTimeout : Duration → Opt
  | withWriteTimeout : Duration → Opt
  | withShutdown : Duration → Opt
  | withMaxHeaderBytes : Int → Opt
  | withOutputWriter : Sink → Opt
  | withErrorWriter : Sink → Opt
deriving DecidableEq, Repr

/-- The body of each `With...` closure (server.go): a single field update. -/
def applyOpt {H : Type} (s : Server H) : Opt → Server H
  | .withReadTimeout d => { s with server := { s.server with readTimeout := d } }
  | .withWriteTimeout d => { s with server := { s.server with writeTimeout := d } }
  | .withShutdown d => { s with shutdown := d }
  | .withMaxHeaderBytes n => { s with server := { s.server with maxHeaderBytes := n } }
  | .withOutputWriter w => { s with out := w }
  | .withErrorWriter w => { s with err := w }

/-- `server.New(addr, h, opts...)`: builds the defaulted struct, then applies
the options in order (`for _, opt := range opts { s = opt(s) }`). -/
def New {H : Type} (addr : String) (h : H) (opts : List Opt) : Server H :=
  opts.foldl applyOpt
    { addr := addr
      server :=
        { addr := addr
          handler := h
          readTimeout := ReadTimeout
          writeTimeout := WriteTimeout
          maxHeaderBytes := MaxHeaderBytes }
      shutdown := ShutdownTimeout
      out := Sink.stdout
      err := Sink.stderr }

/-- The six configurable fields an option can target. -/
inductive Field where
  | readTimeoutF | writeTimeoutF | shutdownF | maxHeaderBytesF | outF | errF
deriving DecidableEq, Repr

/-- Which field an option writes. -/
def Opt.field : Opt → Field
  | .withReadTimeout _ => .readTimeoutF
  | .withWriteTimeout _ => .writeTimeoutF
  | .withShutdown _ => .shutdownF
  | .withMaxHeaderBytes _ => .maxHeaderBytesF
  | .withOutputWriter _ => .outF
  | .withErrorWriter _ => .errF

/-- The value of a configurable field: a numeric value (durations, byte
counts) or a sink. -/
abbrev SVal := Sum Int Sink

/-- The value an option writes into its field. -/
def Opt.val : Opt → SVal
  | .withReadTimeout d => Sum.inl d
  | .withWriteTimeout d => Sum.inl d
  | .withShutdown d => Sum.inl d
  | .withMaxHeaderBytes n => Sum.inl n
  | .withOutputWriter w => Sum.inr w
  | .withErrorWriter w => Sum.inr w

/-- Read a configurable field off a server. -/
def Server.getF {H : Type} (s : Server H) : Field → SVal
  | .readTimeoutF => Sum.inl s.server.readTimeout
  | .writeTimeoutF => Sum.inl s.server.writeTimeout
  | .shutdownF => Sum.inl s.shutdown
  | .maxHeaderBytesF => Sum.inl s.server.maxHeaderBytes
  | .outF => Sum.inr s.out
  | .errF => Sum.inr s.err

theorem applyOpt_getF_self {H : Type} (s : Server H) (o : Opt) :
    (applyOpt s o).getF o.field = o.val := by
  cases o <;> rfl

theorem applyOpt_getF_other {H : Type} (s : Server H) (o : Opt) (f : Field)
    (hne : f ≠ o.field) : (applyOpt s o).getF f = s.getF f := by
  cases o <;> cases f <;> first
    | rfl
    | exact absurd rfl hne

theorem foldl_getF_untouched {H : Type} (l : List Opt) (f : Field)
    (hl : ∀ o ∈ l, o.field ≠ f) (s : Server H) :
    (l.foldl applyOpt s).getF f = s.getF f := by
  induction l generalizing s with
  | nil => rfl
  | cons o l ih =>
      rw [List.foldl_cons, ih (fun o' ho' => hl o' (List.mem_cons_of_mem o ho'))]
      exact applyOpt_getF_other s o f (fun h => hl o (List.mem_cons_self o l) h.symm)

/-- The messages `Server.ListenAndServe` writes, one constructor per
`fmt.Fprintf` call site, carrying that site's runtime parameters:
`"listening on %s...\n"`, the serve loop's terminal error text (used
directly as the format), `"shutdown timed out after %s: %v"`, and
`"error killing server: %v"`. -/
inductive Msg where
  | listening : String → Msg
  | serveTerminated : GoError → Msg
  | shutdownTimedOut : Duration → GoError → Msg
  | errorKillingServer : GoError → Msg
deriving DecidableEq, Repr

/-- Observable events of one goroutine of `ListenAndServe`, in program
order: a write of a message to a sink, the blocking receive on the signal
channel, the `Shutdown(ctx)` call, the `Close()` call, and the `wg.Wait()`
join on the serve goroutine. -/
inductive Ev where
  | write : Sink → Msg → Ev
  | signalWait : Ev
  | shutdownCall : Ev
  | closeCall : Ev
  | wgWait : Ev
deriving DecidableEq, Repr

/-- The behaviour of the wrapped engine (`http.Server`) during one complete
execution of `ListenAndServe`, as seen through the three lifecycle calls the
supervisor makes. `serveErr` is the terminal error of the inner
`ListenAndServe` serve loop (in Go it always returns a non-nil error —
`ErrServerClosed` on clean shutdown, or e.g. a bind failure);
`shutdownErr = none` means the graceful drain completed within the
deadline-bound context; `closeErr = none` means `Close()` succeeded.
`Close()` is only ever called when `shutdownErr` is `some`, so `closeErr`
is irrelevant otherwise. -/
structure EngineBehavior where
  serveErr : GoError
  shutdownErr : Option GoError
  closeErr : Option GoError
deriving DecidableEq, Repr

/-- The outcome of one complete execution of `Server.ListenAndServe`:
the main goroutine's events in program order, the serve goroutine's events
in program order (the two interleave arbitrarily), the returned error, and
whether the main goroutine executed `wg.Wait()` before returning. -/
structure RunResult where
  mainEvents : List Ev
  goroutineEvents : List Ev
  returned : Option GoError
  waitedForServe : Bool
deriving DecidableEq, Repr

/-- `Server.ListenAndServe(ctx)` (server.go), transcribed branch by branch.
The spawned goroutine writes the listening line to `s.out` and then, when
the serve loop terminates, its error text to `s.err`. The main goroutine
blocks on the signal channel, derives the deadline-bound context, and calls
`Shutdown`. If `Shutdown` returns nil it falls through to `wg.Wait()` and
returns nil. If `Shutdown` errs it writes the timeout line and calls
`Close`; if `Close` succeeds it falls through to `wg.Wait()` and returns
nil, and if `Close` errs it writes the kill-failure line and returns that
error immediately (before the `wg.Wait()` line). -/
def listenAndServe {H : Type} (s : Server H) (b : EngineBehavior) : RunResult :=
  let gEvents := [Ev.write s.out (Msg.listening s.addr),
                  Ev.write s.err (Msg.serveTerminated b.serveErr)]
  match b.shutdownErr with
  | none =>
      { mainEvents := [Ev.signalWait, Ev.shutdownCall, Ev.wgWait]
        goroutineEvents := gEvents
        returned := none
        waitedForServe := true }
  | some e =>
      match b.closeErr with
      | none =>
          { mainEvents := [Ev.signalWait, Ev.shutdownCall,
              Ev.write s.err (Msg.shutdownTimedOut s.shutdown e),
              Ev.closeCall, Ev.wgWait]
            goroutineEvents := gEvents
            returned := none
            waitedForServe := true }
      | some ce =>
          { mainEvents := [Ev.signalWait, Ev.shutdownCall,
              Ev.write s.err (Msg.shutdownTimedOut s.shutdown e),
              Ev.closeCall,
              Ev.write s.err (Msg.errorKillingServer ce)]
            goroutineEvents := gEvents
            returned := some ce
            waitedForServe := false }

/-- Whether the execution invoked forced close (`s.server.Close()`). -/
def RunResult.closeCalled (r : RunResult) : Prop := Ev.closeCall ∈ r.mainEvents

instance (r : RunResult) : Decidable r.closeCalled :=
  inferInstanceAs (Decidable (Ev.closeCall ∈ r.mainEvents))

theorem applyOpt_addr_handler {H : Type} (s : Server H) (o : Opt) :
    (applyOpt s o).server.addr = s.server.addr ∧
    (applyOpt s o).server.handler = s.server.handler := by
  cases o <;> exact ⟨rfl, rfl⟩

theorem foldl_addr_handler {H : Type} (l : List Opt) (s : Server H) :
    (l.foldl applyOpt s).server.addr = s.server.addr ∧
    (l.foldl applyOpt s).server.handler = s.server.handler := by
  induction l generalizing s with
  | nil => exact ⟨rfl, rfl⟩
  | cons o l ih =>
      rw [List.foldl_cons]
      exact ⟨(ih (applyOpt s o)).1.trans (applyOpt_addr_handler s o).1,
             (ih (applyOpt s o)).2.trans (applyOpt_addr_handler s o).2⟩

end server

namespace client

/-- `DefaultTimeout = 5 * time.Second` (client.go). -/
def DefaultTimeout : Duration := 5 * second

/-- The fields of the embedded standard `http.Client` that this package
touches: `Timeout`, `Transport`, `CheckRedirect`, `Jar`. Transports,
redirect policies and cookie jars are opaque values the code only stores,
so they are modelled as identities; `none` is Go's `nil` (the zero value of
the embedded client). -/
structure HttpClient where
  timeout : Duration
  transport : Option Nat
  checkRedirect : Option Nat
  jar : Option Nat
deriving DecidableEq, Repr

/-- The `client.Client` struct, embedding the standard client. -/
structure Client where
  client : HttpClient
deriving DecidableEq, Repr

/-- Promoted field access via Go embedding (`c.Timeout`). -/
def Client.timeout (c : Client) : Duration := c.client.timeout

/-- Promoted field access via Go embedding (`c.Transport`). -/
def Client.transport (c : Client) : Option Nat := c.client.transport

/-- Promoted field access via Go embedding (`c.CheckRedirect`). -/
def Client.checkRedirect (c : Client) : Option Nat := c.client.checkRedirect

/-- Promoted field access via Go embedding (`c.Jar`). -/
def Client.jar (c : Client) : Option Nat := c.client.jar

/-- The recognized client options; as for the server, the four `With...`
constructors in client.go are the whole option space. -/
inductive Opt where
  | withTimeout : Duration → Opt
  | withTransport : Nat → Opt
  | withCheckRedirect : Nat → Opt
  | withJar : Nat → Opt
deriving DecidableEq, Repr

/-- The body of each client `With...` closure: a single field update on the
embedded client. -/
def applyOpt (c : Client) : Opt → Client
  | .withTimeout d => { c with client := { c.client with timeout := d } }
  | .withTransport t => { c with client := { c.client with transport := some t } }
  | .withCheckRedirect f => { c with client := { c.client with checkRedirect := some f } }
  | .withJar j => { c with client := { c.client with jar := some j } }

/-- `client.New(opts...)`: embedded client with the default timeout (other
fields zero / nil), then options applied in order. -/
def New (opts : List Opt) : Client :=
  opts.foldl applyOpt
    { client :=
        { timeout := DefaultTimeout
          transport := none
          checkRedirect := none
          jar := none } }

/-- The configurable client fields. -/
inductive Field where
  | timeoutF | transportF | checkRedirectF | jarF
deriving DecidableEq, Repr

/-- Which field a client option writes. -/
def Opt.field : Opt → Field
  | .withTimeout _ => .timeoutF
  | .withTransport _ => .transportF
  | .withCheckRedirect _ => .checkRedirectF
  | .withJar _ => .jarF

/-- The value of a configurable client field. -/
abbrev CVal := Sum Duration (Option Nat)

/-- The value a client option writes into its field. -/
def Opt.val : Opt → CVal
  | .withTimeout d => Sum.inl d
  | .withTransport t => Sum.inr (some t)
  | .withCheckRedirect f => Sum.inr (some f)
  | .withJar j => Sum.inr (some j)

/-- Read a configurable field off a client. -/
def Client.getF (c : Client) : Field → CVal
  | .timeoutF => Sum.inl c.client.timeout
  | .transportF => Sum.inr c.client.transport
  | .checkRedirectF => Sum.inr c.client.checkRedirect
  | .jarF => Sum.inr c.client.jar

theorem cliApplyOpt_getF_self (c : Client) (o : Opt) :
    (applyOpt c o).getF o.field = o.val := by
  cases o <;> rfl

theorem cliApplyOpt_getF_other (c : Client) (o : Opt) (f : Field)
    (hne : f ≠ o.field) : (applyOpt c o).getF f = c.getF f := by
  cases o <;> cases f <;> first
    | rfl
    | exact absurd rfl hne

theorem cliFoldl_getF_untouched (l : List Opt) (f : Field)
    (hl : ∀ o ∈ l, o.field ≠ f) (c : Client) :
    (l.foldl applyOpt c).getF f = c.getF f := by
  induction l generalizing c with
  | nil => rfl
  | cons o l ih =>
      rw [List.foldl_cons, ih (fun o' ho' => hl o' (List.mem_cons_of_mem o ho'))]
      exact cliApplyOpt_getF_other c o f (fun h => hl o (List.mem_cons_self o l) h.symm)

end client

/-- C1: For every execution of `ListenAndServe`, the returned error is
non-nil only when the forced close of the serving engine itself fails, in
which case that force-close error is returned; in every other execution
(graceful drain succeeds, or drain fails but forced close succeeds, or the
serve loop terminates with any error) the run call returns nil. -/
theorem run_returns_error_iff_close_fails {H : Type} (s : server.Server H)
    (b : server.EngineBehavior) :
    (server.listenAndServe s b).returned =
      if (server.listenAndServe s b).closeCalled ∧ b.closeErr.isSome
      then b.closeErr else none := by
  rcases b with ⟨se, sd, ce⟩
  cases sd <;> cases ce <;>
    simp [server.listenAndServe, server.RunResult.closeCalled]

/-- C2 (counterexample): in the execution where the graceful drain fails and
the forced close also fails, `ListenAndServe` returns without executing the
`wg.Wait()` join, so the claim that the run call always waits for the serve
goroutine — including on the forced-close-error path — is false. -/
theorem run_skips_join_on_close_error :
    (server.listenAndServe (server.New ":8080" (0 : Nat) [])
      { serveErr := "http: Server closed"
        shutdownErr := some "context deadline exceeded"
        closeErr := some "close failed" }).waitedForServe = false := rfl

/-- C2 (amended): `ListenAndServe` waits for the serve goroutine to
terminate before returning on the graceful path and on the forced path
where `Close` succeeds; exactly when both the graceful drain and the forced
close fail, it returns the close error immediately without waiting. -/
theorem run_joins_serve_unit_unless_close_fails {H : Type}
    (s : server.Server H) (b : server.EngineBehavior) :
    (server.listenAndServe s b).waitedForServe
      = !(b.shutdownErr.isSome && b.closeErr.isSome) := by
  rcases b with ⟨se, sd, ce⟩
  cases sd <;> cases ce <;> rfl

/-- C3: whenever the graceful drain returns an error, the run call writes
the "shutdown timed out after <period>: <error>" line (with the configured
grace period and the drain error) to the error sink, and the very next event
of the main goroutine is the forced `Close()` call. -/
theorem shutdown_failure_writes_then_closes {H : Type} (s : server.Server H)
    (b : server.EngineBehavior) (e : GoError) (hsd : b.shutdownErr = some e) :
    ∃ i, ((server.listenAndServe s b).mainEvents)[i]? =
            some (server.Ev.write s.err (server.Msg.shutdownTimedOut s.shutdown e)) ∧
         ((server.listenAndServe s b).mainEvents)[i + 1]? = some server.Ev.closeCall := by
  rcases b with ⟨se, sd, ce⟩
  cases sd with
  | none => cases hsd
  | some e' =>
      injection hsd with h
      subst h
      cases ce <;> exact ⟨2, rfl, rfl⟩

/-- C3 witness at a concrete server and behaviour. -/
theorem shutdown_failure_writes_then_closes_witness :
    ∃ i, ((server.listenAndServe (server.New ":8080" (0 : Nat) [])
            { serveErr := "http: Server closed"
              shutdownErr := some "context deadline exceeded"
              closeErr := none }).mainEvents)[i]? =
            some (server.Ev.write Sink.stderr
              (server.Msg.shutdownTimedOut server.ShutdownTimeout "context deadline exceeded")) ∧
         ((server.listenAndServe (server.New ":8080" (0 : Nat) [])
            { serveErr := "http: Server closed"
              shutdownErr := some "context deadline exceeded"
              closeErr := none }).mainEvents)[i + 1]? = some server.Ev.closeCall :=
  shutdown_failure_writes_then_closes _ _ "context deadline exceeded" rfl

/-- C4: in every execution the serve loop's terminal error (including the
conventional closed sentinel) is written to the error sink by the serve
goroutine, and the run call's return value does not depend on that serve
error at all, so it is never surfaced as the result. -/
theorem serve_error_written_never_returned {H : Type} (s : server.Server H)
    (b : server.EngineBehavior) :
    server.Ev.write s.err (server.Msg.serveTerminated b.serveErr)
        ∈ (server.listenAndServe s b).goroutineEvents ∧
    ∀ e' : GoError, (server.listenAndServe s { b with serveErr := e' }).returned
        = (server.listenAndServe s b).returned := by
  constructor
  · rcases b with ⟨se, sd, ce⟩
    cases sd <;> cases ce <;> simp [server.listenAndServe]
  · intro e'
    rcases b with ⟨se, sd, ce⟩
    cases sd <;> cases ce <;> rfl

/-- C5: for both the server and the client constructor, options are applied
strictly in the order supplied and the later write wins per field: if two
options set the same field and no later option sets that field again, the
constructed value's field holds the second option's value. -/
theorem later_option_wins_per_field :
    (∀ (H : Type) (addr : String) (h : H) (pre mid post : List server.Opt)
        (o1 o2 : server.Opt), o1.field = o2.field →
        (∀ o ∈ post, server.Opt.field o ≠ o2.field) →
        (server.New addr h (pre ++ o1 :: mid ++ o2 :: post)).getF o2.field = o2.val) ∧
    (∀ (pre mid post : List client.Opt) (o1 o2 : client.Opt),
        o1.field = o2.field →
        (∀ o ∈ post, client.Opt.field o ≠ o2.field) →
        (client.New (pre ++ o1 :: mid ++ o2 :: post)).getF o2.field = o2.val) := by
  constructor
  · intro H addr h pre mid post o1 o2 _ hpost
    unfold server.New
    rw [List.foldl_append, List.foldl_cons, List.foldl_append, List.foldl_cons,
        server.foldl_getF_untouched post o2.field hpost]
    exact server.applyOpt_getF_self _ o2
  · intro pre mid post o1 o2 _ hpost
    unfold client.New
    rw [List.foldl_append, List.foldl_cons, List.foldl_append, List.foldl_cons,
        client.cliFoldl_getF_untouched post o2.field hpost]
    exact client.cliApplyOpt_getF_self _ o2

/-- C5 witness: two conflicting read-timeout options on the server and two
conflicting timeout options on the client; the later value wins. -/
theorem later_option_wins_per_field_witness :
    (server.New ":8080" (0 : Nat)
        [server.Opt.withReadTimeout (10 * second),
         server.Opt.withReadTimeout (20 * second)]).getF
        server.Field.readTimeoutF = Sum.inl (20 * second) ∧
    (client.New
        [client.Opt.withTimeout (10 * second),
         client.Opt.withTimeout (20 * second)]).getF
        client.Field.timeoutF = Sum.inl (20 * second) :=
  ⟨later_option_wins_per_field.1 Nat ":8080" 0 [] [] []
      (server.Opt.withReadTimeout (10 * second))
      (server.Opt.withReadTimeout (20 * second)) rfl (by simp),
   later_option_wins_per_field.2 [] [] []
      (client.Opt.withTimeout (10 * second))
      (client.Opt.withTimeout (20 * second)) rfl (by simp)⟩

/-- C6: a server constructed with no options has read timeout 5s, write
timeout 10s, max header bytes 1 MiB, and shutdown grace period 5s. -/
theorem server_defaults {H : Type} (addr : String) (h : H) :
    (server.New addr h []).server.readTimeout = 5 * second ∧
    (server.New addr h []).server.writeTimeout = 10 * second ∧
    (server.New addr h []).server.maxHeaderBytes = 1 <<< 20 ∧
    (server.New addr h []).shutdown = 5 * second :=
  ⟨rfl, rfl, rfl, rfl⟩

/-- C7: for every duration `t`, a server constructed with the option
`WithReadTimeout t` has read timeout exactly `t`, overriding the default. -/
theorem withReadTimeout_overrides_default {H : Type} (addr : String) (h : H)
    (t : Duration) :
    (server.New addr h [server.Opt.withReadTimeout t]).server.readTimeout = t := rfl

/-- C8: a client constructed with no options has timeout exactly 5s, and for
every duration `t`, `New [WithTimeout t]` has timeout exactly `t`. -/
theorem client_timeout_default_and_override :
    (client.New []).timeout = 5 * second ∧
    ∀ t : Duration, (client.New [client.Opt.withTimeout t]).timeout = t :=
  ⟨rfl, fun _ => rfl⟩

/-- C9: for every server construction with any sequence of recognized
options, the underlying serving engine's address equals the supplied
address and its handler equals the supplied handler: no option touches
them. -/
theorem options_preserve_addr_handler {H : Type} (addr : String) (h : H)
    (opts : List server.Opt) :
    (server.New addr h opts).server.addr = addr ∧
    (server.New addr h opts).server.handler = h :=
  server.foldl_addr_handler opts _

/-- C10: two server options targeting distinct fields commute: supplying
them to `New` in either order yields an identical supervisor. -/
theorem distinct_field_options_commute {H : Type} (addr : String) (h : H)
    (o1 o2 : server.Opt) (hne : o1.field ≠ o2.field) :
    server.New addr h [o1, o2] = server.New addr h [o2, o1] := by
  cases o1 <;> cases o2 <;> first
    | exact absurd rfl hne
    | rfl

/-- C10 witness: read-timeout and write-timeout options commute. -/
theorem distinct_field_options_commute_witness :
    server.New ":8080" (0 : Nat)
        [server.Opt.withReadTimeout (7 * second),
         server.Opt.withWriteTimeout (9 * second)]
      = server.New ":8080" (0 : Nat)
        [server.Opt.withWriteTimeout (9 * second),
         server.Opt.withReadTimeout (7 * second)] :=
  distinct_field_options_commute ":8080" 0 _ _ (by decide)
